import Mathlib

/-!
Verification of the RePySPM LBNI controller core: the single-slot mailbox
protocol (`AFMController.write_control` / `read_control` in controller.py),
the waveform-parameter validation and commit sequence
(`Utils.set_waveform_params` / `get_waveform_params` in utils.py), and the
ramp / motion sequencers (`ScanControl` in scancontrol.py).

Python code is shallowly embedded: the external LabVIEW bridge is modelled as
an environment (the list of successive values `GetControlValue("RemoteMessage")`
would return), stateful methods become functions from that environment to an
event trace, Python ints are `Int`, Python floats are `ℚ`, and a Python
f-string command `<path>:<value>` is modelled as the pair of its path part and
its value part, so the embedding does not depend on Python's textual
rendering of values.
-/

namespace RePySPM

/-- Modelled from the spec: `commands.py` (class `OHCcommands`) is not under
`src/`; §6 of the spec gives the command grammar `<prefix><path>:<value>`
where the prefix selects read (`r_`) or write (`w_`) and the channel
(`sca` = scan, `ram` = ramp, `wav` = waveform, `exc` = excitation). -/
def OHCcommands.w_sca : String := "w_sca:"

/-- Modelled from the spec: read prefix for the scan channel (see `OHCcommands.w_sca`). -/
def OHCcommands.r_sca : String := "r_sca:"

/-- Modelled from the spec: write prefix for the ramp channel (see `OHCcommands.w_sca`). -/
def OHCcommands.w_ram : String := "w_ram:"

/-- Modelled from the spec: read prefix for the ramp channel (see `OHCcommands.w_sca`). -/
def OHCcommands.r_ram : String := "r_ram:"

/-- Modelled from the spec: write prefix for the waveform channel (see `OHCcommands.w_sca`). -/
def OHCcommands.w_wav : String := "w_wav:"

/-- Modelled from the spec: read prefix for the waveform channel (see `OHCcommands.w_sca`). -/
def OHCcommands.r_wav : String := "r_wav:"

/-! ## Mailbox: `AFMController.write_control` / `read_control` (controller.py)

The LabVIEW bridge is modelled by the list of successive results of
`GetControlValue("RemoteMessage")`: each poll of the slot consumes one
element.  A run is `none` when the environment list is exhausted before the
slot is ever observed empty (the Python loop would still be blocking). -/

/-- One observable step of a mailbox-level run. -/
inductive MEvent where
  /-- a `GetControlValue("RemoteMessage")` call that returned `m`. -/
  | poll (m : String)
  /-- a `SetControlValue("RemoteMessage", c)` call. -/
  | setSlot (c : String)
  /-- the final `GetControlValue(controlName)` of `read_control`. -/
  | getCtl (name : String)
deriving DecidableEq, Repr

/-- Embedding of the `while message != each-poll-result` loop of
controller.py lines 67-71 (and 79-83, 89-93): `message` starts as the
non-empty string `"message"`, so the loop always polls at least once, and it
exits right after a poll observes the empty string.  Returns the polls
performed and the unconsumed rest of the environment. -/
def pollLoop : List String → Option (List MEvent × List String)
  | [] => none
  | m :: rest =>
      if m = "" then some ([MEvent.poll m], rest)
      else
        match pollLoop rest with
        | some (tr, r) => some (MEvent.poll m :: tr, r)
        | none => none

/-- Embedding of `AFMController.write_control` (controller.py lines 66-76):
wait until the `RemoteMessage` slot is observed empty, then write the
command into it. -/
def write_control (env : List String) (command : String) :
    Option (List MEvent × List String) :=
  match pollLoop env with
  | some (tr, rest) => some (tr ++ [MEvent.setSlot command], rest)
  | none => none

/-- Embedding of `AFMController.read_control` (controller.py lines 78-95):
wait-empty, write the command, wait-empty again, then read back the named
control. -/
def read_control (env : List String) (command control_name : String) :
    Option (List MEvent × List String) :=
  match pollLoop env with
  | some (tr₁, rest₁) =>
      match pollLoop rest₁ with
      | some (tr₂, rest₂) =>
          some (tr₁ ++ [MEvent.setSlot command] ++ tr₂ ++ [MEvent.getCtl control_name],
                rest₂)
      | none => none
  | none => none

/-! ## Waveform parameters: `Utils` (utils.py)

A write command `f-string w_wav...scanWaveFormCtl:param:value` is modelled as
the pair of its path part `w_wav ++ "scanWaveFormCtl:" ++ param` and its
value part (a `Val`). -/

/-- A Python runtime value, as far as the waveform validators inspect one. -/
inductive Val where
  | vint (n : Int)
  | vbool (b : Bool)
  | vfloat (q : ℚ)
  | vstr (s : String)
deriving DecidableEq, Repr

/-- Python `isinstance(value, int)`: `bool` is a subclass of `int` in Python,
so booleans pass the instance check. -/
def Val.isinstance_int : Val → Bool
  | vint _ => true
  | vbool _ => true
  | _ => false

/-- The integer a Python int-like value compares as (`False` = 0, `True` = 1);
never used on non-int-likes. -/
def Val.intval : Val → Int
  | vint n => n
  | vbool b => if b then 1 else 0
  | _ => 0

/-- The guard of utils.py line 178 (`not isinstance(value, int) or value <= 2`),
negated: a point-count value passes iff it is an int and greater than 2. -/
def validPts (v : Val) : Bool := v.isinstance_int && decide (2 < v.intval)

/-- Per utils.py line 167, the valid waveform types are `Triangle`,
`Rounded` and `Sine`. -/
def validWaveType (s : String) : Bool := s = "Triangle" || s = "Rounded" || s = "Sine"

/-- Path-and-value form of the write command of utils.py lines 181 and 194:
the f-string `w_wav...scanWaveFormCtl:param:value`. -/
def wavCmd (param : String) (v : Val) : String × Val :=
  (OHCcommands.w_wav ++ "scanWaveFormCtl:" ++ param, v)

/-- Embedding of `Utils.update_waveform_FPGA` (utils.py lines 154-160): the
single commit command `scanWaveFormCtl:Update FPGA:True` on the waveform
channel. -/
def update_waveform_FPGA : String × Val :=
  (OHCcommands.w_wav ++ "scanWaveFormCtl:Update FPGA", Val.vbool true)

/-- The `int_params` dict of utils.py lines 170-175, in insertion order
(Python dicts iterate in insertion order). -/
def int_params (slowN slowroundN fastN fastroundN : Val) : List (String × Val) :=
  [("slowWavePts", slowN), ("slowRoundPts", slowroundN),
   ("fastWavePts", fastN), ("fastRoundPts", fastroundN)]

/-- The `type_params` dict of utils.py lines 185-188, in insertion order. -/
def type_params (slowType fastType : String) : List (String × String) :=
  [("slowWaveType", slowType), ("fastWaveType", fastType)]

/-- The first loop of `set_waveform_params` (utils.py lines 177-182): each
entry is validated and then immediately written; the loop raises at the first
invalid entry, keeping the writes already performed.  Returns the writes and
`some failingField` on failure. -/
def writeIntParams : List (String × Val) → List (String × Val) × Option String
  | [] => ([], none)
  | (p, v) :: rest =>
      if validPts v then
        let r := writeIntParams rest
        (wavCmd p v :: r.1, r.2)
      else ([], some p)

/-- The second loop of `set_waveform_params` (utils.py lines 190-195),
same validate-then-write shape for the two waveform-type fields. -/
def writeTypeParams : List (String × String) → List (String × Val) × Option String
  | [] => ([], none)
  | (p, s) :: rest =>
      if validWaveType s then
        let r := writeTypeParams rest
        (wavCmd p (Val.vstr s) :: r.1, r.2)
      else ([], some p)

/-- Embedding of `Utils.set_waveform_params` (utils.py lines 162-200): the
integer loop, then the type loop, then `update_waveform_FPGA()`.  Result:
the sequence of writes sent through the mailbox and `some failingField`
when a `ValueError` was raised (writes performed before the raise are
kept). -/
def set_waveform_params (slowN : Val) (slowType : String) (slowroundN : Val)
    (fastN : Val) (fastType : String) (fastroundN : Val) :
    List (String × Val) × Option String :=
  let r₁ := writeIntParams (int_params slowN slowroundN fastN fastroundN)
  match r₁.2 with
  | some e => (r₁.1, some e)
  | none =>
      let r₂ := writeTypeParams (type_params slowType fastType)
      match r₂.2 with
      | some e => (r₁.1 ++ r₂.1, some e)
      | none => (r₁.1 ++ r₂.1 ++ [update_waveform_FPGA], none)

/-- Embedding of `Utils.get_waveform_params` (utils.py lines 202-211):
demultiplex the aggregate `scanWaveFormCtl` response positionally and return
the responses at indices 0, 2, 4, 1, 3, 5 in that order. -/
def get_waveform_params (response : List Val) : List Val :=
  [response.getD 0 (Val.vstr ""), response.getD 2 (Val.vstr ""),
   response.getD 4 (Val.vstr ""), response.getD 1 (Val.vstr ""),
   response.getD 3 (Val.vstr ""), response.getD 5 (Val.vstr "")]

/-- The value last written to waveform field `param` in a write sequence. -/
def lastFieldWrite (ws : List (String × Val)) (param : String) : Option Val :=
  (ws.reverse.find? (fun c => c.1 = OHCcommands.w_wav ++ "scanWaveFormCtl:" ++ param)).map
    (fun c => c.2)

/-- Modelled from the spec: the device-side layout of the `scanWaveFormCtl`
aggregate is not code under `src/`; §6 of the spec fixes index 0 = slow
points, 1 = fast points, 2 = slow type, 3 = fast type, 4 = slow round points,
5 = fast round points.  A faithful slot responds at each index with the value
last written to the corresponding field. -/
def faithfulResponse (ws : List (String × Val)) : List Val :=
  [(lastFieldWrite ws "slowWavePts").getD (Val.vstr ""),
   (lastFieldWrite ws "fastWavePts").getD (Val.vstr ""),
   (lastFieldWrite ws "slowWaveType").getD (Val.vstr ""),
   (lastFieldWrite ws "fastWaveType").getD (Val.vstr ""),
   (lastFieldWrite ws "slowRoundPts").getD (Val.vstr ""),
   (lastFieldWrite ws "fastRoundPts").getD (Val.vstr "")]

/-- The six validated fields of `set_waveform_params` in the order the code
checks and writes them, each with its validity. -/
def waveform_fields (slowN : Val) (slowType : String) (slowroundN : Val)
    (fastN : Val) (fastType : String) (fastroundN : Val) :
    List (String × Val × Bool) :=
  [("slowWavePts", slowN, validPts slowN),
   ("slowRoundPts", slowroundN, validPts slowroundN),
   ("fastWavePts", fastN, validPts fastN),
   ("fastRoundPts", fastroundN, validPts fastroundN),
   ("slowWaveType", Val.vstr slowType, validWaveType slowType),
   ("fastWaveType", Val.vstr fastType, validWaveType fastType)]

/-! ## Ramp and motion sequencers: `ScanControl` (scancontrol.py)

Sequencer methods are embedded as the trace of observable steps they
perform, in program order.  Python floats are embedded as `ℚ`. -/

/-- One observable step of a sequencer run. -/
inductive Event where
  /-- a command sent via `write_control`, as its path and value parts. -/
  | write (path : String) (v : Val)
  /-- a `z_control.get_zposition()` call that returned `z`. -/
  | readZ (z : ℚ)
  /-- a `scan_parameters.get_scan_speed()` call that returned `v`. -/
  | readScanSpeed (v : ℚ)
  /-- a `time.sleep(t)` call. -/
  | sleep (t : ℚ)
deriving DecidableEq, Repr

/-- Embedding of `ScanControl.scan_down` (scancontrol.py lines 69-76): the
command `Actions:Frame down:True` on the scan channel. -/
def scan_down : List Event :=
  [Event.write (OHCcommands.w_sca ++ "Actions:Frame down") (Val.vbool true)]

/-- Embedding of `ScanControl.scan_stop` (scancontrol.py lines 87-94): the
command `Actions:Stop:True` on the scan channel. -/
def scan_stop : List Event :=
  [Event.write (OHCcommands.w_sca ++ "Actions:Stop") (Val.vbool true)]

/-- Embedding of `ScanControl.do_ramp_relative_length` (scancontrol.py lines
308-357): Trigger Source `Relative Height`, then Start (the caller's `init`,
sent as-is), Distance, Points, Fwd, Bwd, Pause, then the Play
`True` / `False` pulse.  No Z position is read. -/
def do_ramp_relative_length (init length : ℚ) (N : Int)
    (speed_f speed_b wait_s : ℚ) : List Event :=
  [Event.write (OHCcommands.w_ram ++ "Trigger Source") (Val.vstr "Relative Height"),
   Event.write (OHCcommands.w_ram ++ "Parameters:Start") (Val.vfloat init),
   Event.write (OHCcommands.w_ram ++ "Parameters:Distance") (Val.vfloat length),
   Event.write (OHCcommands.w_ram ++ "Parameters:Points") (Val.vint N),
   Event.write (OHCcommands.w_ram ++ "Parameters:Fwd") (Val.vfloat speed_f),
   Event.write (OHCcommands.w_ram ++ "Parameters:Bwd") (Val.vfloat speed_b),
   Event.write (OHCcommands.w_ram ++ "Parameters:Pause") (Val.vfloat wait_s),
   Event.write (OHCcommands.w_ram ++ "Actions:Play") (Val.vbool true),
   Event.write (OHCcommands.w_ram ++ "Actions:Play") (Val.vbool false)]

/-- Embedding of `ScanControl.do_ramp_relative_trig` (scancontrol.py lines
359-415): line 373 computes `init_pos = z_control.get_zposition() + init`
once, then the sequence Trigger Source `Process Variable`, Trigger sign,
Start (`init_pos`), Distance (the trigger threshold), Points, Fwd, Bwd,
Pause and the Play `True` / `False` pulse follows.  Here `z` is the value the
single `get_zposition()` call returns (`zcontrol.py` is not under `src/`;
the read itself is modelled from the spec as one query returning the current
Z position).  `trig_signal` is accepted and unused, as in the source. -/
def do_ramp_relative_trig (z : ℚ) (init trig_val : ℚ)
    (trig_signal trig_sig : String) (N : Int)
    (speed_f speed_b wait_s : ℚ) : List Event :=
  Event.readZ z ::
  [Event.write (OHCcommands.w_ram ++ "Trigger Source") (Val.vstr "Process Variable"),
   Event.write (OHCcommands.w_ram ++ "Trigger sign") (Val.vstr trig_sig),
   Event.write (OHCcommands.w_ram ++ "Parameters:Start") (Val.vfloat (z + init)),
   Event.write (OHCcommands.w_ram ++ "Parameters:Distance") (Val.vfloat trig_val),
   Event.write (OHCcommands.w_ram ++ "Parameters:Points") (Val.vint N),
   Event.write (OHCcommands.w_ram ++ "Parameters:Fwd") (Val.vfloat speed_f),
   Event.write (OHCcommands.w_ram ++ "Parameters:Bwd") (Val.vfloat speed_b),
   Event.write (OHCcommands.w_ram ++ "Parameters:Pause") (Val.vfloat wait_s),
   Event.write (OHCcommands.w_ram ++ "Actions:Play") (Val.vbool true),
   Event.write (OHCcommands.w_ram ++ "Actions:Play") (Val.vbool false)]

/-- Test whether an event is a `Parameters:Start` write on the ramp channel. -/
def isStartWrite (e : Event) : Bool :=
  match e with
  | Event.write p _ => p = OHCcommands.w_ram ++ "Parameters:Start"
  | _ => false

/-- Test whether an event is a Z-position read. -/
def isReadZ (e : Event) : Bool :=
  match e with
  | Event.readZ _ => true
  | _ => false

/-- Modelled from the spec: `scan_parameters.set_width(v)` is not under
`src/`; §4.5 says `moveTo` sets scan width and height to a minimal value via
scan-channel writes, so the setter issues one write of the scan width. -/
def set_width (v : ℚ) : List Event :=
  [Event.write (OHCcommands.w_sca ++ "Width") (Val.vfloat v)]

/-- Modelled from the spec: `scan_parameters.set_height(v)` issues one write
of the scan height (see `set_width`). -/
def set_height (v : ℚ) : List Event :=
  [Event.write (OHCcommands.w_sca ++ "Height") (Val.vfloat v)]

/-- Modelled from the spec: `scan_parameters.set_offset_x(v)` issues one
write of the scan X offset (see `set_width`). -/
def set_offset_x (v : ℚ) : List Event :=
  [Event.write (OHCcommands.w_sca ++ "Offset X") (Val.vfloat v)]

/-- Modelled from the spec: `scan_parameters.set_offset_y(v)` issues one
write of the scan Y offset (see `set_width`). -/
def set_offset_y (v : ℚ) : List Event :=
  [Event.write (OHCcommands.w_sca ++ "Offset Y") (Val.vfloat v)]

/-- Modelled from the spec: `scan_parameters.get_scan_speed()` is not under
`src/`; it queries the controller and returns the current scan speed, here
the environment-provided `scanSpeed`. -/
def get_scan_speed (scanSpeed : ℚ) : List Event × ℚ :=
  ([Event.readScanSpeed scanSpeed], scanSpeed)

/-- Embedding of `ScanControl.set_xyposition` (scancontrol.py lines
201-221): if `forced`, stop the scan first; set width and height to `1e-12`,
write the target offsets, start a downward scan, sleep for
`get_scan_speed() * 1.1`, then stop scanning. -/
def set_xyposition (x y : ℚ) (forced : Bool) (scanSpeed : ℚ) : List Event :=
  (if forced then scan_stop else []) ++
  set_width (1 / 1000000000000) ++ set_height (1 / 1000000000000) ++
  set_offset_x x ++ set_offset_y y ++
  scan_down ++ (get_scan_speed scanSpeed).1 ++
  [Event.sleep ((get_scan_speed scanSpeed).2 * (11 / 10))] ++ scan_stop

/-- Per scancontrol.py lines 420-421, the `is_ramping` command is built from
the control name `Ramping?`. -/
def is_ramping_command : String := OHCcommands.r_ram ++ "Ramping?"

/-- Per scancontrol.py line 423, `control` is then rebound to `Ramping?_`
(with a trailing underscore), and that is the control whose value is read
back. -/
def is_ramping_control : String := "Ramping?_"

/-- Embedding of `ScanControl.is_ramping` (scancontrol.py lines 417-425): a
`read_control` query sending `is_ramping_command` and reading back
`is_ramping_control`. -/
def is_ramping (env : List String) : Option (List MEvent × List String) :=
  read_control env is_ramping_command is_ramping_control

/-! ## Theorems -/

/-- Shape of a successful `pollLoop` run: some non-empty observations, then
one observation of the empty string, consuming exactly that prefix of the
environment. -/
theorem pollLoop_shape (env : List String) (tr : List MEvent) (rest : List String)
    (h : pollLoop env = some (tr, rest)) :
    ∃ ms : List String, (∀ m ∈ ms, m ≠ "") ∧
      tr = ms.map MEvent.poll ++ [MEvent.poll ""] ∧
      env = ms ++ [""] ++ rest := by
  induction env generalizing tr rest with
  | nil => simp [pollLoop] at h
  | cons m env ih =>
      by_cases hm : m = ""
      · subst hm
        simp [pollLoop] at h
        exact ⟨[], by simp, by simp [h.1], by simp [h.2]⟩
      · have hstep : pollLoop (m :: env) =
            match pollLoop env with
            | some (tr, r) => some (MEvent.poll m :: tr, r)
            | none => none := by
          simp [pollLoop, hm]
        rw [hstep] at h
        cases hrec : pollLoop env with
        | none => rw [hrec] at h; simp at h
        | some p =>
            obtain ⟨tr', rest'⟩ := p
            rw [hrec] at h
            simp at h
            obtain ⟨htr, hrest⟩ := h
            subst hrest
            obtain ⟨ms, hms, htr', henv⟩ := ih tr' rest' hrec
            refine ⟨m :: ms, ?_, ?_, ?_⟩
            · intro x hx
              rcases List.mem_cons.mp hx with hx | hx
              · exact hx ▸ hm
              · exact hms x hx
            · simp [← htr, htr']
            · simp [henv]

/-- Claim C1.  At most one command is in flight: `write_control` writes the
command into the `RemoteMessage` slot only after a poll loop has observed the
slot empty (all earlier polls saw a non-empty string, the last poll before
the write saw the empty string), and `read_control` performs the same
empty-wait before writing and a second empty-wait after writing before it
reads back the named control's value. -/
theorem mailbox_single_command_in_flight
    (env env' : List String) (cmd cmd' ctl : String)
    (tr tr' : List MEvent) (rest rest' : List String)
    (hw : write_control env cmd = some (tr, rest))
    (hr : read_control env' cmd' ctl = some (tr', rest')) :
    (∃ ms : List String, (∀ m ∈ ms, m ≠ "") ∧
        tr = ms.map MEvent.poll ++ [MEvent.poll "", MEvent.setSlot cmd]) ∧
    (∃ ms₁ ms₂ : List String, (∀ m ∈ ms₁, m ≠ "") ∧ (∀ m ∈ ms₂, m ≠ "") ∧
        tr' = ms₁.map MEvent.poll ++ [MEvent.poll "", MEvent.setSlot cmd'] ++
              ms₂.map MEvent.poll ++ [MEvent.poll "", MEvent.getCtl ctl]) := by
  constructor
  · unfold write_control at hw
    cases hp : pollLoop env with
    | none => rw [hp] at hw; simp at hw
    | some p =>
        obtain ⟨tr₀, rest₀⟩ := p
        rw [hp] at hw
        simp at hw
        obtain ⟨ms, hms, htr, _⟩ := pollLoop_shape env tr₀ rest₀ hp
        exact ⟨ms, hms, by rw [← hw.1, htr]; simp⟩
  · unfold read_control at hr
    cases hp₁ : pollLoop env' with
    | none => rw [hp₁] at hr; simp at hr
    | some p₁ =>
        obtain ⟨tr₁, rest₁⟩ := p₁
        rw [hp₁] at hr
        simp only at hr
        cases hp₂ : pollLoop rest₁ with
        | none => rw [hp₂] at hr; simp at hr
        | some p₂ =>
            obtain ⟨tr₂, rest₂⟩ := p₂
            rw [hp₂] at hr
            simp at hr
            obtain ⟨ms₁, hms₁, htr₁, _⟩ := pollLoop_shape env' tr₁ rest₁ hp₁
            obtain ⟨ms₂, hms₂, htr₂, _⟩ := pollLoop_shape rest₁ tr₂ rest₂ hp₂
            exact ⟨ms₁, ms₂, hms₁, hms₂, by rw [← hr.1, htr₁, htr₂]; simp⟩

/-- Witness for C1 at a concrete environment: the bridge reports a busy slot
once, then an empty slot (twice more for the read side). -/
theorem mailbox_single_command_in_flight_witness :
    (∃ ms : List String, (∀ m ∈ ms, m ≠ "") ∧
        ([MEvent.poll "busy", MEvent.poll "", MEvent.setSlot "w_ram:Actions:Play:True"] :
          List MEvent) =
          ms.map MEvent.poll ++ [MEvent.poll "", MEvent.setSlot "w_ram:Actions:Play:True"]) ∧
    (∃ ms₁ ms₂ : List String, (∀ m ∈ ms₁, m ≠ "") ∧ (∀ m ∈ ms₂, m ≠ "") ∧
        ([MEvent.poll "", MEvent.setSlot "r_ram:Ramping?", MEvent.poll "busy",
          MEvent.poll "", MEvent.getCtl "Ramping?_"] : List MEvent) =
          ms₁.map MEvent.poll ++ [MEvent.poll "", MEvent.setSlot "r_ram:Ramping?"] ++
          ms₂.map MEvent.poll ++ [MEvent.poll "", MEvent.getCtl "Ramping?_"]) :=
  mailbox_single_command_in_flight
    ["busy", ""] ["", "busy", ""] "w_ram:Actions:Play:True" "r_ram:Ramping?" "Ramping?_"
    [MEvent.poll "busy", MEvent.poll "", MEvent.setSlot "w_ram:Actions:Play:True"]
    [MEvent.poll "", MEvent.setSlot "r_ram:Ramping?", MEvent.poll "busy",
      MEvent.poll "", MEvent.getCtl "Ramping?_"]
    [] [] (by decide) (by decide)

/-- Claim C2, counterexample.  The claim says an invalid point count produces
a validation error *and no command traffic at all*.  At
`set_waveform_params(slowN=3, slowType="Sine", slowroundN=0, fastN=64,
fastType="Sine", fastroundN=4)` the call does raise (on `slowRoundPts`), but
the `slowWavePts` write has already gone out: traffic is non-empty. -/
theorem set_waveform_params_traffic_before_failure :
    (set_waveform_params (Val.vint 3) "Sine" (Val.vint 0) (Val.vint 64) "Sine"
        (Val.vint 4)).2 = some "slowRoundPts" ∧
    (set_waveform_params (Val.vint 3) "Sine" (Val.vint 0) (Val.vint 64) "Sine"
        (Val.vint 4)).1 = [wavCmd "slowWavePts" (Val.vint 3)] ∧
    (set_waveform_params (Val.vint 3) "Sine" (Val.vint 0) (Val.vint 64) "Sine"
        (Val.vint 4)).1 ≠ [] := by
  refine ⟨rfl, rfl, ?_⟩
  decide

/-- Claim C2 (amended).  If any point-count argument is not an integer
greater than 2, the call fails with a validation error; the writes sent are
exactly those for the point-count fields preceding the first invalid one in
validation order (so an invalid `slowWavePts` produces no traffic at all),
and the `Update FPGA` commit is never issued. -/
theorem set_waveform_params_invalid_pts
    (sN srN fN frN : Val) (sT fT : String)
    (h : (int_params sN srN fN frN).any (fun pv => !validPts pv.2) = true) :
    (set_waveform_params sN sT srN fN fT frN).2.isSome = true ∧
    (set_waveform_params sN sT srN fN fT frN).1 =
      ((int_params sN srN fN frN).takeWhile (fun pv => validPts pv.2)).map
        (fun pv => wavCmd pv.1 pv.2) ∧
    update_waveform_FPGA ∉ (set_waveform_params sN sT srN fN fT frN).1 ∧
    (validPts sN = false → (set_waveform_params sN sT srN fN fT frN).1 = []) := by
  cases h1 : validPts sN <;> cases h2 : validPts srN <;> cases h3 : validPts fN <;>
    cases h4 : validPts frN <;>
      simp_all [set_waveform_params, writeIntParams, writeTypeParams, int_params,
        type_params, wavCmd, update_waveform_FPGA, OHCcommands.w_wav]

/-- Witness for C2 (amended) at `slowN=3, slowroundN=0`: the call fails, the
only write is `slowWavePts:3`, and no commit is sent. -/
theorem set_waveform_params_invalid_pts_witness :
    (set_waveform_params (Val.vint 3) "Sine" (Val.vint 0) (Val.vint 64) "Sine"
        (Val.vint 4)).2.isSome = true ∧
    (set_waveform_params (Val.vint 3) "Sine" (Val.vint 0) (Val.vint 64) "Sine"
        (Val.vint 4)).1 =
      ((int_params (Val.vint 3) (Val.vint 0) (Val.vint 64) (Val.vint 4)).takeWhile
          (fun pv => validPts pv.2)).map (fun pv => wavCmd pv.1 pv.2) ∧
    update_waveform_FPGA ∉ (set_waveform_params (Val.vint 3) "Sine" (Val.vint 0)
        (Val.vint 64) "Sine" (Val.vint 4)).1 ∧
    (validPts (Val.vint 3) = false →
      (set_waveform_params (Val.vint 3) "Sine" (Val.vint 0) (Val.vint 64) "Sine"
          (Val.vint 4)).1 = []) :=
  set_waveform_params_invalid_pts (Val.vint 3) (Val.vint 0) (Val.vint 64) (Val.vint 4)
    "Sine" "Sine" (by decide)

/-- Claim C3.  `set_waveform_params` checks its six fields in the fixed order
slowWavePts, slowRoundPts, fastWavePts, fastRoundPts, slowWaveType,
fastWaveType and raises at the first invalid one.  On success the write
sequence is all six field writes followed by the `Update FPGA` commit; on
failure it is exactly the writes for the fields strictly before the first
invalid field, the raised error names that first invalid field, and the
commit never appears among the partial writes. -/
theorem set_waveform_params_first_failure
    (sN srN fN frN : Val) (sT fT : String) :
    (set_waveform_params sN sT srN fN fT frN =
      if (waveform_fields sN sT srN fN fT frN).all (fun f => f.2.2) then
        ((waveform_fields sN sT srN fN fT frN).map (fun f => wavCmd f.1 f.2.1) ++
          [update_waveform_FPGA], none)
      else
        (((waveform_fields sN sT srN fN fT frN).takeWhile (fun f => f.2.2)).map
            (fun f => wavCmd f.1 f.2.1),
         ((waveform_fields sN sT srN fN fT frN).dropWhile (fun f => f.2.2)).head?.map
            (fun f => f.1))) ∧
    update_waveform_FPGA ∉
      ((waveform_fields sN sT srN fN fT frN).takeWhile (fun f => f.2.2)).map
        (fun f => wavCmd f.1 f.2.1) := by
  cases h1 : validPts sN <;> cases h2 : validPts srN <;> cases h3 : validPts fN <;>
    cases h4 : validPts frN <;> cases h5 : validWaveType sT <;>
      cases h6 : validWaveType fT <;>
        simp_all [set_waveform_params, writeIntParams, writeTypeParams, int_params,
          type_params, waveform_fields, wavCmd, update_waveform_FPGA, OHCcommands.w_wav]

/-- Claim C4, counterexample.  The claim's first six writes interleave types
with point counts (slowWavePts, slowWaveType, slowRoundPts, fastWavePts,
fastWaveType, fastRoundPts); the code instead sends the four point-count
writes first and the two type writes after them, so the claimed sequence is
not the one emitted. -/
theorem set_waveform_params_scenario_counterexample :
    (set_waveform_params (Val.vint 64) "Sine" (Val.vint 8) (Val.vint 256) "Triangle"
        (Val.vint 4)).1 ≠
      [wavCmd "slowWavePts" (Val.vint 64), wavCmd "slowWaveType" (Val.vstr "Sine"),
       wavCmd "slowRoundPts" (Val.vint 8), wavCmd "fastWavePts" (Val.vint 256),
       wavCmd "fastWaveType" (Val.vstr "Triangle"), wavCmd "fastRoundPts" (Val.vint 4),
       update_waveform_FPGA] := by
  decide

/-- Claim C4 (amended).  The scenario emits exactly seven writes: the four
point-count writes `slowWavePts:64, slowRoundPts:8, fastWavePts:256,
fastRoundPts:4` in that order, then the two type writes `slowWaveType:Sine,
fastWaveType:Triangle`, and the `Update FPGA:True` commit as the last
write; the call succeeds. -/
theorem set_waveform_params_scenario :
    set_waveform_params (Val.vint 64) "Sine" (Val.vint 8) (Val.vint 256) "Triangle"
        (Val.vint 4) =
      ([wavCmd "slowWavePts" (Val.vint 64), wavCmd "slowRoundPts" (Val.vint 8),
        wavCmd "fastWavePts" (Val.vint 256), wavCmd "fastRoundPts" (Val.vint 4),
        wavCmd "slowWaveType" (Val.vstr "Sine"), wavCmd "fastWaveType" (Val.vstr "Triangle"),
        update_waveform_FPGA], none) := rfl

/-- Claim C5.  For all valid waveform parameters, reading back after a
successful `set_waveform_params` returns every field with the value written:
the positional demultiplexing of `get_waveform_params` (indices 0,2,4,1,3,5)
composed with a slot that faithfully stores the written values yields
`[slowN, slowType, slowroundN, fastN, fastType, fastroundN]`. -/
theorem get_waveform_params_roundtrip
    (sN srN fN frN : Val) (sT fT : String)
    (h1 : validPts sN = true) (h2 : validPts srN = true)
    (h3 : validPts fN = true) (h4 : validPts frN = true)
    (h5 : validWaveType sT = true) (h6 : validWaveType fT = true) :
    get_waveform_params
        (faithfulResponse (set_waveform_params sN sT srN fN fT frN).1) =
      [sN, Val.vstr sT, srN, fN, Val.vstr fT, frN] := by
  simp [set_waveform_params, writeIntParams, writeTypeParams, int_params, type_params,
    h1, h2, h3, h4, h5, h6, faithfulResponse, lastFieldWrite, get_waveform_params,
    wavCmd, update_waveform_FPGA, OHCcommands.w_wav, List.find?]

/-- Witness for C5 at the concrete valid parameters of the §8 scenario. -/
theorem get_waveform_params_roundtrip_witness :
    get_waveform_params
        (faithfulResponse (set_waveform_params (Val.vint 64) "Sine" (Val.vint 8)
            (Val.vint 256) "Triangle" (Val.vint 4)).1) =
      [Val.vint 64, Val.vstr "Sine", Val.vint 8, Val.vint 256, Val.vstr "Triangle",
       Val.vint 4] :=
  get_waveform_params_roundtrip (Val.vint 64) (Val.vint 8) (Val.vint 256) (Val.vint 4)
    "Sine" "Triangle" (by decide) (by decide) (by decide) (by decide) (by decide)
    (by decide)

/-- Claim C6.  Both implemented ramp variants end their write sequence with
the edge-triggered Play pulse: `Actions:Play:True` immediately followed by
`Actions:Play:False`, with no other command between the two. -/
theorem ramp_play_pulse (init length : ℚ) (N : Int) (sf sb w : ℚ)
    (z init' tv : ℚ) (tsignal tsig : String) (N' : Int) (sf' sb' w' : ℚ) :
    (∃ pre : List Event, do_ramp_relative_length init length N sf sb w =
      pre ++ [Event.write (OHCcommands.w_ram ++ "Actions:Play") (Val.vbool true),
              Event.write (OHCcommands.w_ram ++ "Actions:Play") (Val.vbool false)]) ∧
    (∃ pre : List Event, do_ramp_relative_trig z init' tv tsignal tsig N' sf' sb' w' =
      pre ++ [Event.write (OHCcommands.w_ram ++ "Actions:Play") (Val.vbool true),
              Event.write (OHCcommands.w_ram ++ "Actions:Play") (Val.vbool false)]) := by
  constructor
  · exact ⟨[Event.write (OHCcommands.w_ram ++ "Trigger Source") (Val.vstr "Relative Height"),
      Event.write (OHCcommands.w_ram ++ "Parameters:Start") (Val.vfloat init),
      Event.write (OHCcommands.w_ram ++ "Parameters:Distance") (Val.vfloat length),
      Event.write (OHCcommands.w_ram ++ "Parameters:Points") (Val.vint N),
      Event.write (OHCcommands.w_ram ++ "Parameters:Fwd") (Val.vfloat sf),
      Event.write (OHCcommands.w_ram ++ "Parameters:Bwd") (Val.vfloat sb),
      Event.write (OHCcommands.w_ram ++ "Parameters:Pause") (Val.vfloat w)], rfl⟩
  · exact ⟨[Event.readZ z,
      Event.write (OHCcommands.w_ram ++ "Trigger Source") (Val.vstr "Process Variable"),
      Event.write (OHCcommands.w_ram ++ "Trigger sign") (Val.vstr tsig),
      Event.write (OHCcommands.w_ram ++ "Parameters:Start") (Val.vfloat (z + init')),
      Event.write (OHCcommands.w_ram ++ "Parameters:Distance") (Val.vfloat tv),
      Event.write (OHCcommands.w_ram ++ "Parameters:Points") (Val.vint N'),
      Event.write (OHCcommands.w_ram ++ "Parameters:Fwd") (Val.vfloat sf'),
      Event.write (OHCcommands.w_ram ++ "Parameters:Bwd") (Val.vfloat sb'),
      Event.write (OHCcommands.w_ram ++ "Parameters:Pause") (Val.vfloat w')], rfl⟩

/-- Claim C7, counterexample.  The claim says *every* relative ramp sends
`Start = currentZPosition + init`.  With current Z position 5 and
`do_ramp_relative_length(init=1, length=2, N=100, speed_f=3, speed_b=4,
wait_s=0)`, the code sends `Start:1` (the raw `init`), not `Start:6`, and it
never reads the Z position at all. -/
theorem ramp_relative_length_start_counterexample :
    (do_ramp_relative_length 1 2 100 3 4 0).filter isReadZ = [] ∧
    Event.write (OHCcommands.w_ram ++ "Parameters:Start") (Val.vfloat 1) ∈
      do_ramp_relative_length 1 2 100 3 4 0 ∧
    Event.write (OHCcommands.w_ram ++ "Parameters:Start") (Val.vfloat (5 + 1)) ∉
      do_ramp_relative_length 1 2 100 3 4 0 := by
  refine ⟨rfl, ?_, ?_⟩ <;> norm_num [do_ramp_relative_length, OHCcommands.w_ram] <;>
    simp

/-- Claim C7 (amended).  `do_ramp_relative_trig` reads the Z position exactly
once, as its very first step, and the unique `Start` value it sends is that
single reading plus the caller's `init`; `do_ramp_relative_length`, by
contrast, never reads Z and sends the caller's `init` directly as `Start`. -/
theorem ramp_relative_start_values (z init tv : ℚ) (tsignal tsig : String)
    (N : Int) (sf sb w : ℚ) (init' length : ℚ) (N' : Int) (sf' sb' w' : ℚ) :
    (do_ramp_relative_trig z init tv tsignal tsig N sf sb w).head? =
        some (Event.readZ z) ∧
    (do_ramp_relative_trig z init tv tsignal tsig N sf sb w).filter isReadZ =
        [Event.readZ z] ∧
    (do_ramp_relative_trig z init tv tsignal tsig N sf sb w).filter isStartWrite =
        [Event.write (OHCcommands.w_ram ++ "Parameters:Start") (Val.vfloat (z + init))] ∧
    (do_ramp_relative_length init' length N' sf' sb' w').filter isReadZ = [] ∧
    (do_ramp_relative_length init' length N' sf' sb' w').filter isStartWrite =
        [Event.write (OHCcommands.w_ram ++ "Parameters:Start") (Val.vfloat init')] := by
  refine ⟨rfl, ?_, ?_, rfl, ?_⟩ <;>
    simp [do_ramp_relative_trig, do_ramp_relative_length, isReadZ, isStartWrite,
      OHCcommands.w_ram]

/-- Claim C8.  The triggered relative ramp scenario
(`init=-5e-8, trig_val=0.5, trig_sig='>', N=2000, speed_f=5e-7,
speed_b=5.1e-7, wait_s=0`) emits its writes in exactly the mandatory
Configuring order — Trigger Source `Process Variable`, Trigger sign (present
because the source is Process Variable), Start, Distance, Points, Fwd, Bwd,
Pause — and ends with the Play `True` / `False` pulse pair. -/
theorem do_ramp_relative_trig_scenario (z : ℚ) (tsignal : String) :
    do_ramp_relative_trig z (-(5 / 100000000)) (1 / 2) tsignal ">" 2000
        (5 / 10000000) (51 / 100000000) 0 =
      [Event.readZ z,
       Event.write (OHCcommands.w_ram ++ "Trigger Source") (Val.vstr "Process Variable"),
       Event.write (OHCcommands.w_ram ++ "Trigger sign") (Val.vstr ">"),
       Event.write (OHCcommands.w_ram ++ "Parameters:Start")
         (Val.vfloat (z + -(5 / 100000000))),
       Event.write (OHCcommands.w_ram ++ "Parameters:Distance") (Val.vfloat (1 / 2)),
       Event.write (OHCcommands.w_ram ++ "Parameters:Points") (Val.vint 2000),
       Event.write (OHCcommands.w_ram ++ "Parameters:Fwd") (Val.vfloat (5 / 10000000)),
       Event.write (OHCcommands.w_ram ++ "Parameters:Bwd") (Val.vfloat (51 / 100000000)),
       Event.write (OHCcommands.w_ram ++ "Parameters:Pause") (Val.vfloat 0),
       Event.write (OHCcommands.w_ram ++ "Actions:Play") (Val.vbool true),
       Event.write (OHCcommands.w_ram ++ "Actions:Play") (Val.vbool false)] := rfl

/-- Claim C9.  `set_xyposition(x=1e-7, y=0, forced=False)` issues, in order:
a write setting the scan width to `1e-12`, a write setting the scan height
to `1e-12`, writes setting offset X to `1e-7` and offset Y to `0`, the
scan-down write, then (after reading the scan speed) a sleep of exactly
`scanSpeed * 1.1` seconds, then the scan-stop write; since `forced` is
false, no stop command precedes the sequence. -/
theorem set_xyposition_scenario (scanSpeed : ℚ) :
    set_xyposition (1 / 10000000) 0 false scanSpeed =
      [Event.write (OHCcommands.w_sca ++ "Width") (Val.vfloat (1 / 1000000000000)),
       Event.write (OHCcommands.w_sca ++ "Height") (Val.vfloat (1 / 1000000000000)),
       Event.write (OHCcommands.w_sca ++ "Offset X") (Val.vfloat (1 / 10000000)),
       Event.write (OHCcommands.w_sca ++ "Offset Y") (Val.vfloat 0),
       Event.write (OHCcommands.w_sca ++ "Actions:Frame down") (Val.vbool true),
       Event.readScanSpeed scanSpeed,
       Event.sleep (scanSpeed * (11 / 10)),
       Event.write (OHCcommands.w_sca ++ "Actions:Stop") (Val.vbool true)] := rfl

/-- Claim C10.  In any successful `is_ramping` run, the command written into
the mailbox slot embeds the control name `Ramping?`, while the value read
back at the end is that of the differently-named control `Ramping?_`: the
command sent and the control read do not match. -/
theorem is_ramping_name_mismatch (env : List String)
    (tr : List MEvent) (rest : List String)
    (h : is_ramping env = some (tr, rest)) :
    MEvent.setSlot (OHCcommands.r_ram ++ "Ramping?") ∈ tr ∧
    tr.getLast? = some (MEvent.getCtl "Ramping?_") ∧
    is_ramping_command ≠ OHCcommands.r_ram ++ is_ramping_control := by
  unfold is_ramping read_control at h
  cases hp₁ : pollLoop env with
  | none => rw [hp₁] at h; simp at h
  | some p₁ =>
      obtain ⟨tr₁, rest₁⟩ := p₁
      rw [hp₁] at h
      simp only at h
      cases hp₂ : pollLoop rest₁ with
      | none => rw [hp₂] at h; simp at h
      | some p₂ =>
          obtain ⟨tr₂, rest₂⟩ := p₂
          rw [hp₂] at h
          simp at h
          refine ⟨?_, ?_, by decide⟩
          · rw [← h.1]
            simp [is_ramping_command]
          · rw [← h.1]
            rw [show tr₁ ++ MEvent.setSlot is_ramping_command ::
                  (tr₂ ++ [MEvent.getCtl is_ramping_control]) =
                (tr₁ ++ MEvent.setSlot is_ramping_command :: tr₂) ++
                  [MEvent.getCtl is_ramping_control] by simp]
            rw [List.getLast?_concat]
            rfl

/-- Witness for C10: with an environment whose slot is immediately observed
empty twice, `is_ramping` succeeds and exhibits the name mismatch. -/
theorem is_ramping_name_mismatch_witness :
    MEvent.setSlot (OHCcommands.r_ram ++ "Ramping?") ∈
      ([MEvent.poll "", MEvent.setSlot is_ramping_command, MEvent.poll "",
        MEvent.getCtl is_ramping_control] : List MEvent) ∧
    ([MEvent.poll "", MEvent.setSlot is_ramping_command, MEvent.poll "",
        MEvent.getCtl is_ramping_control] : List MEvent).getLast? =
      some (MEvent.getCtl "Ramping?_") ∧
    is_ramping_command ≠ OHCcommands.r_ram ++ is_ramping_control :=
  is_ramping_name_mismatch ["", ""]
    [MEvent.poll "", MEvent.setSlot is_ramping_command, MEvent.poll "",
      MEvent.getCtl is_ramping_control] [] (by decide)

end RePySPM
